import Mathlib

/-!
Verification of the content-fetching scripts of this repository.

The scripts drive a stealth browser to fetch SEC filing pages, strip an
HTML wrapper from embedded XML, and print one JSON object per run.
String-level helpers below embed the Python string operations used by
`make_request` in `temp_camoufox_script.py`; bodies and patterns are
`List Char`.
-/

/-- ASCII whitespace test matching the characters stripped by Python
`str.strip()` on the ASCII range (space, tab, newline, carriage return,
vertical tab, form feed). -/
def pyIsSpace (c : Char) : Bool :=
  c == ' ' || c == '\t' || c == '\n' || c == '\r' ||
    c == Char.ofNat 11 || c == Char.ofNat 12

/-- Python `s.strip()`: remove leading and trailing whitespace. -/
def pyStrip (s : List Char) : List Char :=
  ((s.dropWhile pyIsSpace).reverse.dropWhile pyIsSpace).reverse

/-- Python `s.startswith(pat)`. -/
def pyStartswith (s pat : List Char) : Bool :=
  List.isPrefixOf pat s

/-- Python `s.endswith(pat)`. -/
def pyEndswith (s pat : List Char) : Bool :=
  List.isSuffixOf pat s

/-- Python `s.lower()` on the ASCII range. -/
def lowerL (s : List Char) : List Char :=
  s.map Char.toLower

/-- Python `pat in s`: substring containment. -/
def containsSub : List Char → List Char → Bool
  | [], pat => pat.isEmpty
  | c :: t, pat => List.isPrefixOf pat (c :: t) || containsSub t pat

/-- Scan for the first occurrence of `pat`, carrying the current index. -/
def findSubFrom (pat : List Char) : List Char → Nat → Option Nat
  | [], i => if pat.isEmpty then some i else none
  | c :: t, i => if List.isPrefixOf pat (c :: t) then some i else findSubFrom pat t (i + 1)

/-- Index of the first occurrence of `pat` in `s`, if any. -/
def findSub (pat s : List Char) : Option Nat :=
  findSubFrom pat s 0

/-- Python `s.find(pat)`: first index of `pat` in `s`, `-1` when absent. -/
def pyFind (s pat : List Char) : Int :=
  match findSub pat s with
  | some n => (n : Int)
  | none => -1

/-- Python `s[a:b]` for the non-negative indices produced by the scripts
(`a` is guarded by `> -1` in the source, and `b` is at least `19`). -/
def pySlice (s : List Char) (a b : Int) : List Char :=
  (s.drop a.toNat).take (b.toNat - a.toNat)

/-- Python `s[a:]` for a non-negative index. -/
def pySliceFrom (s : List Char) (a : Int) : List Char :=
  s.drop a.toNat

/-- The root open tag searched for by `make_request` (line 31). -/
def openTag : List Char := "<ownershipDocument>".data

/-- The root close tag searched for by `make_request` (line 33). -/
def closeTag : List Char := "</ownershipDocument>".data

/-- The XML declaration searched for in the fallback (line 37). -/
def xmlDeclLit : List Char := "<?xml".data

/-- The HTML-wrapper marker tested by `raw_content.strip().startswith` (line 29). -/
def htmlLit : List Char := "<html".data

/-- Suffix tested against the target URL (line 24). -/
def dotXml : List Char := ".xml".data

/-- The literal tested for self-containment in the branch guard (line 24). -/
def appXmlLit : List Char := "application/xml".data

/-- Content-type marker for JSON classification. -/
def appJsonLit : List Char := "application/json".data

/-- Content-type marker for XML classification. -/
def xmlLit : List Char := "xml".data

/-- Block-page indicator phrase (test scripts, e.g. `test-camoufox.py` line 38). -/
def accessDeniedLit : List Char := "access denied".data

/-- Block-page indicator phrase (test scripts, e.g. `test-camoufox.py` line 38). -/
def blockedLit : List Char := "blocked".data

/-- The fixed URL navigated to by `make_request` (line 21). -/
def targetUrl : List Char :=
  "https://www.sec.gov/Archives/edgar/data/9631/000183988225050613/xslF345X04/ownership.xml".data

/-- Content extraction of `make_request`, lines 26-41 of
`temp_camoufox_script.py`: if the stripped body starts with `<html`,
slice from the first `<ownershipDocument>` to just past the first
`</ownershipDocument>`; failing the open tag, slice from the first
`<?xml`; then `strip()` the result (line 41). -/
def extractContent (raw : List Char) : List Char :=
  let cleaned :=
    if pyStartswith (pyStrip raw) htmlLit then
      let start := pyFind raw openTag
      if start > -1 then
        let stop := pyFind raw closeTag + (closeTag.length : Int)
        pySlice raw start stop
      else
        let start2 := pyFind raw xmlDeclLit
        if start2 > -1 then pySliceFrom raw start2 else raw
    else raw
  pyStrip cleaned

/-- The branch guard of line 24:
`url.endswith('.xml') or 'application/xml' in 'application/xml'`. -/
def xmlBranchGuard : Bool :=
  pyEndswith targetUrl dotXml || containsSub appXmlLit appXmlLit

/-- Lines 24-44 of `make_request`: XML branch extracts content, else
branch returns the page content unchanged. -/
def pageData (raw : List Char) : List Char :=
  if xmlBranchGuard then extractContent raw else raw

/-- Content kind classified by the fetcher (spec §3). -/
inductive ContentKind
  | xml
  | html
  | json
  | unknown
deriving DecidableEq

/-- Error kinds of the fetcher taxonomy (spec §3, §7). -/
inductive ErrKind
  | timeoutKind
  | blockedKind
  | transportFailure
  | malformedContent
deriving DecidableEq

/-- A fetch request: target URL and timeout (spec §3; the scripts use a
fixed URL and a 30000 ms timeout). -/
structure FetchRequest where
  url : List Char
  timeoutMs : Nat
deriving DecidableEq

/-- A raw backend response: status, headers, body (spec §6). -/
structure Response where
  status : Nat
  headers : List (List Char × List Char)
  body : List Char
deriving DecidableEq

/-- Outcome of one backend navigation: a response, a timeout expiry, or
an exception carrying a message (spec §6; the scripts observe these as a
`page.goto` result or a raised exception). -/
inductive BackendOutcome
  | ok : Response → BackendOutcome
  | timedOut : BackendOutcome
  | exn : List Char → BackendOutcome
deriving DecidableEq

/-- A successful fetch result (spec §3). -/
structure FetchResult where
  status : Nat
  headers : List (List Char × List Char)
  body : List Char
  kind : ContentKind
  note : Option (List Char)
deriving DecidableEq

/-- A structured fetch error: kind and message, no body (spec §3). -/
structure FetchError where
  kind : ErrKind
  message : List Char
deriving DecidableEq

/-- The discriminated outcome of one fetch (spec §3 invariant). -/
abbrev FetchOutcome := Sum FetchResult FetchError

/-- Value of the first header whose lower-cased key is `content-type`,
empty when absent. -/
def contentTypeOf (hs : List (List Char × List Char)) : List Char :=
  match hs.find? (fun p => lowerL p.1 == "content-type".data) with
  | some p => p.2
  | none => []

/-- Response headers declare JSON content. -/
def jsonDeclared (r : Response) : Bool :=
  containsSub (contentTypeOf r.headers) appJsonLit

/-- Response headers declare an XML content type. -/
def xmlDeclaredCt (r : Response) : Bool :=
  containsSub (contentTypeOf r.headers) xmlLit

/-- Block-page heuristic of the test scripts (`test-camoufox.py` lines
38-43, `test-sec-data.py` lines 57-59): the lower-cased body contains
`access denied` or `blocked`. -/
def blockedHeuristic (content : List Char) : Bool :=
  containsSub (lowerL content) accessDeniedLit || containsSub (lowerL content) blockedLit

/-- Structural markers looked for after unwrapping (spec §4.1 step 4): a
root open/close tag pair, or an XML declaration. -/
def hasStructuralMarkers (b : List Char) : Bool :=
  (containsSub b openTag && containsSub b closeTag) || containsSub b xmlDeclLit

/-- Extraction note recorded when unwrapping occurred (spec §4.1 step 4). -/
def unwrapNote : List Char := "extracted embedded XML from HTML wrapper".data

/-- Message of a `timeoutKind` error. -/
def timeoutMsg : List Char := "navigation timed out".data

/-- Message of a `blockedKind` error. -/
def blockedMsg : List Char := "blocking page detected".data

/-- Message of a `malformedContent` error. -/
def malformedMsg : List Char := "no structural markers after unwrapping".data

/-- Modelled from the spec: the body of `fetch` (spec §4.1 steps 2-7) is
not itself a function in the repository — the scripts inline it — so the
classification, error taxonomy, extraction note and `Blocked`/`Timeout`/
`TransportFailure`/`MalformedContent` outcomes follow the spec's words,
while the unwrapping reuses `extractContent`, the embedding of
`make_request` lines 26-41, and the block heuristic reuses
`blockedHeuristic` from the test scripts. -/
def processResponse (req : FetchRequest) (out : BackendOutcome) : FetchOutcome :=
  match out with
  | .timedOut => .inr ⟨.timeoutKind, timeoutMsg⟩
  | .exn m => .inr ⟨.transportFailure, m⟩
  | .ok resp =>
    if jsonDeclared resp then
      .inl ⟨resp.status, resp.headers, pyStrip resp.body, .json, none⟩
    else if pyEndswith req.url dotXml || xmlDeclaredCt resp ||
        pyStartswith (pyStrip resp.body) xmlDeclLit then
      if pyStartswith (pyStrip resp.body) htmlLit then
        let unwrapped := extractContent resp.body
        if hasStructuralMarkers unwrapped then
          .inl ⟨resp.status, resp.headers, unwrapped, .xml, some unwrapNote⟩
        else .inr ⟨.malformedContent, malformedMsg⟩
      else .inl ⟨resp.status, resp.headers, pyStrip resp.body, .xml, none⟩
    else
      let kind := if pyStartswith (pyStrip resp.body) htmlLit then ContentKind.html
        else ContentKind.unknown
      if blockedHeuristic resp.body then .inr ⟨.blockedKind, blockedMsg⟩
      else .inl ⟨resp.status, resp.headers, resp.body, kind, none⟩

/-- A navigation backend: the outcome it produces for the n-th
navigation call issued against it. -/
structure NavBackend where
  respond : Nat → BackendOutcome

/-- Modelled from the spec: one `fetch` call (spec §4.1). It issues
exactly one navigation — `make_request` calls `page.goto` once, line 21
— and returns the processed outcome together with the updated count of
navigations issued. -/
def fetch (req : FetchRequest) (nav : NavBackend) (calls : Nat) : FetchOutcome × Nat :=
  (processResponse req (nav.respond calls), calls + 1)

/-- JSON values appearing in the printed object. -/
inductive JVal
  | jstr : List Char → JVal
  | jint : Int → JVal
  | jobj : List (List Char × List Char) → JVal
  | jnull
deriving DecidableEq

/-- Key `data` of the printed JSON object. -/
def dataKey : List Char := "data".data

/-- Key `status` of the printed JSON object. -/
def statusKey : List Char := "status".data

/-- Key `headers` of the printed JSON object. -/
def headersKey : List Char := "headers".data

/-- Key `error` of the printed JSON object. -/
def errorKey : List Char := "error".data

/-- The single JSON object printed per invocation, as an ordered
key/value list: `make_request` lines 46-61 print
`{data, status, headers}` on success and
`{data: null, status: 500, headers: {}, error}` on failure. -/
def serializeOutcome : FetchOutcome → List (List Char × JVal)
  | .inl r => [(dataKey, .jstr r.body), (statusKey, .jint r.status), (headersKey, .jobj r.headers)]
  | .inr e => [(dataKey, .jnull), (statusKey, .jint 500), (headersKey, .jobj []),
      (errorKey, .jstr e.message)]

/-- A fetcher handle: the browser session it holds, if any. -/
structure Fetcher where
  session : Option Nat
deriving DecidableEq

/-- Backend session bookkeeping: how many sessions are open. -/
structure BackendState where
  openSessions : Nat
deriving DecidableEq

/-- Modelled from the spec: `close()` (spec §4.1) is not a named
function in the scripts — the `with Camoufox(...)` block plays its role
— so releasing the held session (decrementing the backend count) and
doing nothing when no session is held follow the spec's words. -/
def closeFetcher : Fetcher × BackendState → Fetcher × BackendState
  | (f, b) =>
    match f.session with
    | some _ => (⟨none⟩, ⟨b.openSessions - 1⟩)
    | none => (f, b)

/-- Modelled from the spec: scoped acquisition around one fetch (spec
§4.1, §5) — the scripts place the whole request inside
`with Camoufox(...) as browser:`, so a session is opened, the fetch body
runs (possibly producing an exception outcome), and the close always
runs afterwards. -/
def scopedFetch (req : FetchRequest) (nav : NavBackend) (b : BackendState) :
    FetchOutcome × BackendState :=
  let opened : Fetcher × BackendState := (⟨some b.openSessions⟩, ⟨b.openSessions + 1⟩)
  let out := (fetch req nav 0).1
  (out, (closeFetcher opened).2)

/-- Concrete request used by witnesses: the fixed URL and 30000 ms
timeout of `make_request`. -/
def reqW : FetchRequest := ⟨targetUrl, 30000⟩

/-- Backend that never responds within the timeout. -/
def navTimeoutW : NavBackend := ⟨fun _ => .timedOut⟩

/-- A fixed deterministic response. -/
def respDetW : Response :=
  ⟨200, [("Content-Type".data, "application/xml".data)], "<?xml version=1.0?><foo/>".data⟩

/-- Deterministic backend returning `respDetW` on every call. -/
def navDetW : NavBackend := ⟨fun _ => .ok respDetW⟩

/-- HTML wrapper prefix of the C1 witness body. -/
def preC1W : List Char := "<html><head></head><body>".data

/-- Inner XML of the C1 witness body. -/
def midC1W : List Char := "<issuer>CORMEDIX</issuer>".data

/-- HTML wrapper suffix of the C1 witness body. -/
def postC1W : List Char := "</body></html>".data

/-- Concrete wrapped-XML response for the C1 witness. -/
def respC1W : Response :=
  ⟨200, [("Content-Type".data, "application/xml".data)],
    preC1W ++ openTag ++ midC1W ++ closeTag ++ postC1W⟩

/-- Backend returning the wrapped-XML response. -/
def navC1W : NavBackend := ⟨fun _ => .ok respC1W⟩

/-- Concrete denial-page response for the C2 witness. -/
def respBlockW : Response :=
  ⟨200, [], "<html><body>Access Denied: request was BLOCKED</body></html>".data⟩

/-- Request with a non-XML URL for the C2 witness. -/
def reqHtmlW : FetchRequest := ⟨"https://www.sec.gov/".data, 30000⟩

/-- Backend returning the denial page. -/
def navBlockW : NavBackend := ⟨fun _ => .ok respBlockW⟩

/-- HTML wrapper prefix of the C6 witness body. -/
def preC6W : List Char := "<html><body>".data

/-- Tail of the C6 witness body after the XML declaration. -/
def restC6W : List Char := " version=1.0?><foo/></body></html>".data

/-- C9 witness body: the open tag sits at index 19 and no close tag
follows, so the computed slice `raw[19:19]` is empty. -/
def rawC9W : List Char := "<html><body>aaaaaaa<ownershipDocument><x>".data

/-- The empty pattern is contained in every string. -/
theorem containsSub_nil (s : List Char) : containsSub s [] = true := by
  induction s with
  | nil => rfl
  | cons c t ih => simp [containsSub, List.isPrefixOf]

/-- A list is a Boolean prefix of itself followed by anything. -/
theorem isPrefixOf_self_append (p r : List Char) : List.isPrefixOf p (p ++ r) = true := by
  rw [List.isPrefixOf_iff_prefix]
  exact List.prefix_append p r

/-- A pattern is contained in itself followed by anything. -/
theorem containsSub_self_append (p r : List Char) : containsSub (p ++ r) p = true := by
  cases p with
  | nil => simpa using containsSub_nil r
  | cons a as =>
    have h : List.isPrefixOf (a :: as) ((a :: as) ++ r) = true := isPrefixOf_self_append _ _
    show (List.isPrefixOf (a :: as) (a :: (as ++ r)) || containsSub (as ++ r) (a :: as)) = true
    simp only [List.cons_append] at h
    simp [h]

/-- Containment is preserved by prepending. -/
theorem containsSub_append_right (s t p : List Char) (h : containsSub t p = true) :
    containsSub (s ++ t) p = true := by
  induction s with
  | nil => simpa using h
  | cons c s' ih =>
    show (List.isPrefixOf p (c :: (s' ++ t)) || containsSub (s' ++ t) p) = true
    simp [ih]

/-- Stripping is the identity on a string with non-space first and last
characters. -/
theorem pyStrip_noop (a b : Char) (l : List Char)
    (ha : pyIsSpace a = false) (hb : pyIsSpace b = false) :
    pyStrip (a :: (l ++ [b])) = a :: (l ++ [b]) := by
  simp [pyStrip, List.dropWhile_cons, ha, hb, List.reverse_append]

/-- A Python slice cut exactly at an interior segment returns that
segment. -/
theorem pySlice_decomp (pre x post : List Char) :
    pySlice (pre ++ (x ++ post)) ((pre.length : Nat) : Int)
      (((pre.length + x.length : Nat) : Int)) = x := by
  unfold pySlice
  rw [Int.toNat_natCast, Int.toNat_natCast, List.drop_left, Nat.add_sub_cancel_left]
  exact List.take_left x post

/-- Core computation for C1: on a body decomposed around one
`<ownershipDocument>...</ownershipDocument>` pair, with the open tag
first found at the start of the pair and the close tag first found at
its end, the extraction of `make_request` returns exactly the pair
inclusive. -/
theorem extract_pair (pre mid post : List Char)
    (hw : pyStartswith (pyStrip (pre ++ openTag ++ mid ++ closeTag ++ post)) htmlLit = true)
    (h1 : findSub openTag (pre ++ openTag ++ mid ++ closeTag ++ post) = some pre.length)
    (h2 : findSub closeTag (pre ++ openTag ++ mid ++ closeTag ++ post)
      = some (pre.length + (openTag.length + mid.length))) :
    extractContent (pre ++ openTag ++ mid ++ closeTag ++ post) = openTag ++ mid ++ closeTag := by
  have hgt : ((pre.length : Int) > -1) := by omega
  have hfo : pyFind (pre ++ openTag ++ mid ++ closeTag ++ post) openTag
      = ((pre.length : Nat) : Int) := by
    unfold pyFind
    rw [h1]
  have hfc : pyFind (pre ++ openTag ++ mid ++ closeTag ++ post) closeTag
      = ((pre.length + (openTag.length + mid.length) : Nat) : Int) := by
    unfold pyFind
    rw [h2]
  have hslice : pySlice (pre ++ openTag ++ mid ++ closeTag ++ post) ((pre.length : Nat) : Int)
      (((pre.length + (openTag.length + mid.length) : Nat) : Int) + (closeTag.length : Int))
      = openTag ++ mid ++ closeTag := by
    have hre : pre ++ openTag ++ mid ++ closeTag ++ post
        = pre ++ ((openTag ++ mid ++ closeTag) ++ post) := by
      simp [List.append_assoc]
    have hstop : (((pre.length + (openTag.length + mid.length) : Nat) : Int)
          + (closeTag.length : Int))
        = ((pre.length + (openTag ++ mid ++ closeTag).length : Nat) : Int) := by
      push_cast
      simp [List.length_append]
      ring
    rw [hre, hstop]
    exact pySlice_decomp pre (openTag ++ mid ++ closeTag) post
  have hstrip : pyStrip (openTag ++ mid ++ closeTag) = openTag ++ mid ++ closeTag := by
    have ho : openTag = '<' :: "ownershipDocument>".data := by decide
    have hc : closeTag = "</ownershipDocument".data ++ ['>'] := by decide
    have hshape : openTag ++ mid ++ closeTag
        = '<' :: (("ownershipDocument>".data ++ mid ++ "</ownershipDocument".data) ++ ['>']) := by
      rw [ho, hc]
      simp [List.append_assoc]
    rw [hshape]
    exact pyStrip_noop '<' '>' _ (by decide) (by decide)
  unfold extractContent
  simp only [hw, if_true, ite_true, hfo, hfc, hgt, if_pos, hslice, hstrip]

/-- Claim C3: every invocation produces exactly one discriminated
outcome — a `FetchResult` or a `FetchError`, never both and never
neither — serialized as a single JSON object whose keys are `data`,
`status`, `headers`, with `error` present exactly when a failure
occurred. -/
theorem fetch_single_discriminated_outcome (req : FetchRequest) (nav : NavBackend) (c : Nat) :
    (((serializeOutcome (fetch req nav c).1).map Prod.fst = [dataKey, statusKey, headersKey] ∧
        ∃ r, (fetch req nav c).1 = Sum.inl r) ∨
      ((serializeOutcome (fetch req nav c).1).map Prod.fst =
          [dataKey, statusKey, headersKey, errorKey] ∧
        ∃ e, (fetch req nav c).1 = Sum.inr e)) ∧
    ¬((∃ r, (fetch req nav c).1 = Sum.inl r) ∧ ∃ e, (fetch req nav c).1 = Sum.inr e) := by
  cases h : (fetch req nav c).1 with
  | inl r =>
    refine ⟨Or.inl ⟨by simp [serializeOutcome], r, rfl⟩, ?_⟩
    rintro ⟨⟨r1, hr⟩, e1, he⟩
    simp at he
  | inr e =>
    refine ⟨Or.inr ⟨by simp [serializeOutcome], e, rfl⟩, ?_⟩
    rintro ⟨⟨r1, hr⟩, e1, he⟩
    simp at hr

/-- Claim C4: an uncaught backend exception makes the fetch fail with a
`transportFailure` error preserving the underlying message, and the
serialized error carries no body content (`data` is null). -/
theorem fetch_transport_failure_preserves_message (req : FetchRequest) (msg : List Char) :
    (fetch req ⟨fun _ => .exn msg⟩ 0).1 = Sum.inr ⟨.transportFailure, msg⟩ ∧
      serializeOutcome (fetch req ⟨fun _ => .exn msg⟩ 0).1 =
        [(dataKey, .jnull), (statusKey, .jint 500), (headersKey, .jobj []),
          (errorKey, .jstr msg)] :=
  ⟨rfl, rfl⟩

/-- Claim C5: a backend that does not respond within the timeout yields
a `timeoutKind` error — distinct from every other error kind — after a
single navigation attempt, with no retry. -/
theorem fetch_timeout_single_attempt (req : FetchRequest) (nav : NavBackend)
    (h : nav.respond 0 = BackendOutcome.timedOut) :
    (fetch req nav 0).1 = Sum.inr ⟨.timeoutKind, timeoutMsg⟩ ∧ (fetch req nav 0).2 = 1 ∧
      (ErrKind.timeoutKind ≠ ErrKind.blockedKind ∧
        ErrKind.timeoutKind ≠ ErrKind.transportFailure ∧
        ErrKind.timeoutKind ≠ ErrKind.malformedContent) :=
  ⟨by simp [fetch, h, processResponse], rfl, by decide⟩

/-- Witness for C5 at a concrete timed-out backend. -/
theorem fetch_timeout_single_attempt_witness :
    (fetch reqW navTimeoutW 0).1 = Sum.inr ⟨.timeoutKind, timeoutMsg⟩ ∧
      (fetch reqW navTimeoutW 0).2 = 1 ∧
      (ErrKind.timeoutKind ≠ ErrKind.blockedKind ∧
        ErrKind.timeoutKind ≠ ErrKind.transportFailure ∧
        ErrKind.timeoutKind ≠ ErrKind.malformedContent) :=
  fetch_timeout_single_attempt reqW navTimeoutW rfl

/-- Claim C7: against a deterministic backend, calling `fetch` twice
with the same request yields identical outcomes (same status, kind and
body) both times. -/
theorem fetch_deterministic_idempotent (req : FetchRequest) (nav : NavBackend)
    (hdet : ∀ i j, nav.respond i = nav.respond j) :
    (fetch req nav 0).1 = (fetch req nav (fetch req nav 0).2).1 := by
  show processResponse req (nav.respond 0) = processResponse req (nav.respond (0 + 1))
  rw [hdet 0 (0 + 1)]

/-- Witness for C7 at a concrete deterministic backend. -/
theorem fetch_deterministic_idempotent_witness :
    (fetch reqW navDetW 0).1 = (fetch reqW navDetW (fetch reqW navDetW 0).2).1 :=
  fetch_deterministic_idempotent reqW navDetW (fun _ _ => rfl)

/-- Claim C8: the scoped acquisition around a fetch always releases the
session — the backend open-session count is restored, and returns to
zero from zero — regardless of the backend outcome (including an
exception), and `closeFetcher` is idempotent. -/
theorem scoped_session_release_and_close_idempotent (req : FetchRequest) (nav : NavBackend)
    (b : BackendState) :
    ((scopedFetch req nav b).2).openSessions = b.openSessions ∧
      ((scopedFetch req nav ⟨0⟩).2).openSessions = 0 ∧
      ∀ x : Fetcher × BackendState, closeFetcher (closeFetcher x) = closeFetcher x := by
  refine ⟨by simp [scopedFetch, closeFetcher], by simp [scopedFetch, closeFetcher], ?_⟩
  rintro ⟨⟨s⟩, bb⟩
  cases s <;> simp [closeFetcher]

/-- Claim C10: the branch guard of `make_request` line 24 is constant
true — `application/xml in application/xml` holds and the fixed URL ends
in `.xml` — so the XML-handling branch is always taken and the else
branch returning regular page content is unreachable. -/
theorem xml_branch_always_taken :
    containsSub appXmlLit appXmlLit = true ∧ pyEndswith targetUrl dotXml = true ∧
      xmlBranchGuard = true ∧ ∀ raw, pageData raw = extractContent raw := by
  have hg : xmlBranchGuard = true := by decide
  exact ⟨by decide, by decide, hg, fun raw => by simp [pageData, hg]⟩

/-- Claim C1: for an HTML document wrapping one
`<ownershipDocument>...</ownershipDocument>` element, `fetch` returns
kind `xml` with body exactly the substring from the first
`<ownershipDocument>` through the matching `</ownershipDocument>`
inclusive, and a non-empty extraction note. -/
theorem fetch_unwraps_ownership_document (req : FetchRequest) (nav : NavBackend)
    (resp : Response) (pre mid post : List Char)
    (hnav : nav.respond 0 = BackendOutcome.ok resp)
    (hbody : resp.body = pre ++ openTag ++ mid ++ closeTag ++ post)
    (hjson : jsonDeclared resp = false)
    (hurl : pyEndswith req.url dotXml = true)
    (hw : pyStartswith (pyStrip resp.body) htmlLit = true)
    (h1 : findSub openTag resp.body = some pre.length)
    (h2 : findSub closeTag resp.body = some (pre.length + (openTag.length + mid.length))) :
    (fetch req nav 0).1 =
      Sum.inl ⟨resp.status, resp.headers, openTag ++ mid ++ closeTag, .xml, some unwrapNote⟩ ∧
      unwrapNote ≠ [] := by
  have hex : extractContent resp.body = openTag ++ mid ++ closeTag := by
    rw [hbody]
    rw [hbody] at hw h1 h2
    exact extract_pair pre mid post hw h1 h2
  have hself : containsSub closeTag closeTag = true := by
    simpa using containsSub_self_append closeTag []
  have hopen2 : containsSub (openTag ++ (mid ++ closeTag)) openTag = true :=
    containsSub_self_append openTag (mid ++ closeTag)
  have hclose2 : containsSub (openTag ++ (mid ++ closeTag)) closeTag = true :=
    containsSub_append_right openTag (mid ++ closeTag) closeTag
      (containsSub_append_right mid closeTag closeTag hself)
  have hmark : hasStructuralMarkers (openTag ++ (mid ++ closeTag)) = true := by
    unfold hasStructuralMarkers
    simp [hopen2, hclose2]
  refine ⟨?_, by decide⟩
  show processResponse req (nav.respond 0) = _
  rw [hnav]
  simp [processResponse, hjson, hurl, hw, hex, hmark]

/-- Witness for C1 at a concrete HTML-wrapped Form 4 body. -/
theorem fetch_unwraps_ownership_document_witness :
    (fetch reqW navC1W 0).1 =
      Sum.inl ⟨respC1W.status, respC1W.headers, openTag ++ midC1W ++ closeTag, .xml,
        some unwrapNote⟩ ∧ unwrapNote ≠ [] :=
  fetch_unwraps_ownership_document reqW navC1W respC1W preC1W midC1W postC1W rfl rfl
    (by decide) (by decide) (by decide) (by decide) (by decide)

/-- Claim C2: when the classification falls to human-readable content
(kind html/unknown) and the lower-cased body contains `access denied`
or `blocked`, `fetch` returns a `blockedKind` error and never a success
result. -/
theorem fetch_blocked_on_denial_page (req : FetchRequest) (nav : NavBackend) (resp : Response)
    (hnav : nav.respond 0 = BackendOutcome.ok resp)
    (hjson : jsonDeclared resp = false)
    (hxml : (pyEndswith req.url dotXml || xmlDeclaredCt resp ||
      pyStartswith (pyStrip resp.body) xmlDeclLit) = false)
    (hblock : containsSub (lowerL resp.body) accessDeniedLit = true ∨
      containsSub (lowerL resp.body) blockedLit = true) :
    (fetch req nav 0).1 = Sum.inr ⟨.blockedKind, blockedMsg⟩ ∧
      ∀ r : FetchResult, (fetch req nav 0).1 ≠ Sum.inl r := by
  have hb : blockedHeuristic resp.body = true := by
    unfold blockedHeuristic
    rcases hblock with h | h <;> simp [h]
  have hmain : (fetch req nav 0).1 = Sum.inr ⟨.blockedKind, blockedMsg⟩ := by
    show processResponse req (nav.respond 0) = _
    rw [hnav]
    simp [processResponse, hjson, hxml, hb]
  refine ⟨hmain, fun r hr => ?_⟩
  rw [hmain] at hr
  simp at hr

/-- Witness for C2 at a concrete denial page served with status 200. -/
theorem fetch_blocked_on_denial_page_witness :
    (fetch reqHtmlW navBlockW 0).1 = Sum.inr ⟨.blockedKind, blockedMsg⟩ ∧
      ∀ r : FetchResult, (fetch reqHtmlW navBlockW 0).1 ≠ Sum.inl r :=
  fetch_blocked_on_denial_page reqHtmlW navBlockW respBlockW rfl (by decide) (by decide)
    (Or.inl (by decide))

/-- Claim C6: on an HTML-wrapped body with no `<ownershipDocument>`
open tag but an `<?xml` declaration first found at the end of the
wrapper prefix, the extraction slices the body from that declaration
onward, discarding the preceding HTML wrapper. -/
theorem extract_falls_back_to_xml_decl (pre rest : List Char)
    (hw : pyStartswith (pyStrip (pre ++ xmlDeclLit ++ rest)) htmlLit = true)
    (hopen : findSub openTag (pre ++ xmlDeclLit ++ rest) = none)
    (hx : findSub xmlDeclLit (pre ++ xmlDeclLit ++ rest) = some pre.length) :
    extractContent (pre ++ xmlDeclLit ++ rest) = pyStrip (xmlDeclLit ++ rest) := by
  have hfo : pyFind (pre ++ xmlDeclLit ++ rest) openTag = -1 := by
    unfold pyFind
    rw [hopen]
  have hfx : pyFind (pre ++ xmlDeclLit ++ rest) xmlDeclLit = ((pre.length : Nat) : Int) := by
    unfold pyFind
    rw [hx]
  have hgt : ((pre.length : Int) > -1) := by omega
  have hngt : ¬((-1 : Int) > -1) := by omega
  have hdrop : pySliceFrom (pre ++ xmlDeclLit ++ rest) ((pre.length : Nat) : Int)
      = xmlDeclLit ++ rest := by
    unfold pySliceFrom
    rw [Int.toNat_natCast]
    have hre : pre ++ xmlDeclLit ++ rest = pre ++ (xmlDeclLit ++ rest) := by
      simp [List.append_assoc]
    rw [hre, List.drop_left]
  unfold extractContent
  simp only [hw, if_true, ite_true, hfo, hfx, hgt, hngt, if_pos, if_neg, ite_false, hdrop]

/-- Witness for C6 at a concrete HTML-wrapped XML declaration. -/
theorem extract_falls_back_to_xml_decl_witness :
    extractContent (preC6W ++ xmlDeclLit ++ restC6W) = pyStrip (xmlDeclLit ++ restC6W) :=
  extract_falls_back_to_xml_decl preC6W restC6W (by decide) (by decide) (by decide)

/-- Claim C9: on an HTML-wrapped body containing the open tag but no
`</ownershipDocument>`, the slice end evaluates to `-1 + 20 = 19`, so
the extraction returns `raw[start:19]` (stripped) — empty whenever the
open tag occurs at index 19 or later — instead of failing or falling
back to the `<?xml` search. -/
theorem extract_missing_close_tag_slice (raw : List Char) (s : Nat)
    (hw : pyStartswith (pyStrip raw) htmlLit = true)
    (hopen : findSub openTag raw = some s)
    (hclose : findSub closeTag raw = none) :
    extractContent raw = pyStrip (pySlice raw ((s : Nat) : Int) 19) ∧
      (19 ≤ s → extractContent raw = []) := by
  have hfo : pyFind raw openTag = ((s : Nat) : Int) := by
    unfold pyFind
    rw [hopen]
  have hfc : pyFind raw closeTag = -1 := by
    unfold pyFind
    rw [hclose]
  have hgt : ((s : Int) > -1) := by omega
  have hstop : (-1 : Int) + (closeTag.length : Int) = 19 := by decide
  have h19 : extractContent raw = pyStrip (pySlice raw ((s : Nat) : Int) 19) := by
    unfold extractContent
    simp only [hw, if_true, ite_true, hfo, hfc, hgt, if_pos, hstop]
  refine ⟨h19, fun hle => ?_⟩
  rw [h19]
  have hempty : pySlice raw ((s : Nat) : Int) 19 = [] := by
    unfold pySlice
    have hz : ((19 : Int)).toNat - (((s : Nat) : Int)).toNat = 0 := by omega
    rw [hz]
    simp
  rw [hempty]
  rfl

/-- Witness for C9: open tag at index 19, no close tag, empty result. -/
theorem extract_missing_close_tag_slice_witness :
    (extractContent rawC9W = pyStrip (pySlice rawC9W ((19 : Nat) : Int) 19) ∧
      (19 ≤ 19 → extractContent rawC9W = [])) :=
  extract_missing_close_tag_slice rawC9W 19 (by decide) (by decide) (by decide)
